import Mathlib

/-!
Shallow embedding of the `black.app` movie-dashboard repository
(`black.py`, `black2.py`, `black3.py`, `black4.py`).

Conventions of the embedding:

* numpy's globally seeded RNG (`np.random.seed` followed by draws from the
  global state, which `DataFrame.sample` without `random_state` also consumes)
  is modelled by an explicit linear congruential generator threaded through
  every random draw, so each synthesis pipeline is a pure function of the
  seed, the loaded catalog and the slider value;
* ratings are represented in tenths as integers (a displayed rating `r`
  corresponds to the integer `10 * r`), so `clip(1, 5)` becomes clamping into
  `[10, 50]`, `round(..., 1)` is absorbed into the integer representation and
  `BaseRating - 0.5` becomes subtracting `5`;
* watch dates are 0-based day offsets into
  `pd.date_range("2024-01-01", "2024-06-30")`, a window of 182 days
  (2024 is a leap year: 31+29+31+30+31+30 = 182);
* `round(np.random.normal(mu, sigma), 1)` is modelled as `mu` plus a
  deterministic integer-tenths noise value derived from the generator; no
  property proved below depends on the distribution of that noise;
* the catalog is the table obtained after the scripts' load / column-rename /
  `dropna` / `to_numeric` steps, which are pure row-wise cleanups of the CSV;
  it is passed to the pipelines as an explicit immutable list.
-/

namespace BlackApp

/-- State of the modelled pseudo-random generator (numpy's global RNG). -/
structure Gen where
  state : Nat
deriving Repr, DecidableEq

/-- `np.random.seed s` / `np.random.RandomState(s)`. -/
def mkGen (seed : Nat) : Gen := ⟨seed % 2 ^ 32⟩

/-- One step of the linear congruential generator. -/
def genNext (g : Gen) : Nat × Gen :=
  let s := (1664525 * g.state + 1013904223) % 2 ^ 32
  (s, ⟨s⟩)

/-- `np.random.randint(lo, hi)`: a draw in `[lo, hi)`. -/
def randInt (lo hi : Nat) (g : Gen) : Nat × Gen :=
  let p := genNext g
  (lo + p.1 % (hi - lo), p.2)

/-- `round(np.random.normal(0, sigma), 1)` in integer tenths: a noise value
in `[-10, 10]` derived deterministically from the generator. -/
def randNormalTenths (g : Gen) : Int × Gen :=
  let p := genNext g
  (Int.ofNat (p.1 % 21) - 10, p.2)

/-- `pd.date_range("2024-01-01", "2024-06-30")` as 0-based day offsets:
the 182 days of the fixed 2024 half-year window. -/
def dateWindow : List Nat := List.range 182

/-- `np.random.choice(dates)`: an index into the 182-day window. -/
def chooseDate (g : Gen) : Nat × Gen :=
  let p := genNext g
  (p.1 % 182, p.2)

/-- `np.clip x lo hi` / `Series.clip(lo, hi)`. -/
def intClamp (x lo hi : Int) : Int := max lo (min x hi)

/-- A catalog record: `MovieID`, `MovieName`, `Genre` (possibly a
comma-separated multi-genre string), `BaseRating` (in tenths). -/
structure Movie where
  movieID : Nat
  movieName : String
  genre : String
  baseRating : Int
deriving Repr, DecidableEq

def defaultMovie : Movie := ⟨0, "", "", 0⟩

/-- A synthetic interaction record: the columns of the synthesized `df`
(`UserID`, `MovieID`, `MovieName`, `Genre`, `UserRating` in tenths,
`WatchTime` in minutes, `WatchDate` as a day offset into `dateWindow`). -/
structure Interaction where
  userID : String
  movieID : Nat
  movieName : String
  genre : String
  userRating : Int
  watchTime : Nat
  watchDate : Nat
deriving Repr, DecidableEq

/-- `DataFrame.sample(n, replace=False)`: repeatedly draw an index into the
remaining rows and remove the chosen row, so the selected rows occupy
pairwise distinct positions of the input. -/
def sampleWR : Nat → Gen → List Movie → List Movie × Gen
  | 0, g, _ => ([], g)
  | _ + 1, g, [] => ([], g)
  | n + 1, g, x :: xs =>
    let p := genNext g
    let i := p.1 % (x :: xs).length
    let rest := sampleWR n p.2 ((x :: xs).eraseIdx i)
    ((x :: xs).getD i defaultMovie :: rest.1, rest.2)

/-! ### Character and string helpers (Python `str` methods used by the scripts) -/

def isUpperAlpha (c : Char) : Bool := 65 ≤ c.toNat && c.toNat ≤ 90

def isLowerAlpha (c : Char) : Bool := 97 ≤ c.toNat && c.toNat ≤ 122

def isAlphaChar (c : Char) : Bool := isUpperAlpha c || isLowerAlpha c

def lowerChar (c : Char) : Char :=
  if isUpperAlpha c then Char.ofNat (c.toNat + 32) else c

def upperChar (c : Char) : Char :=
  if isLowerAlpha c then Char.ofNat (c.toNat - 32) else c

def charsPrefixOf : List Char → List Char → Bool
  | [], _ => true
  | _ :: _, [] => false
  | a :: as, b :: bs => a == b && charsPrefixOf as bs

/-- Substring test on character lists (Python's `in`). -/
def charsSubstring (needle : List Char) : List Char → Bool
  | [] => needle.isEmpty
  | c :: cs => charsPrefixOf needle (c :: cs) || charsSubstring needle cs

/-- `Series.str.contains(pat, case=False)` for a pattern without regex
operators: case-insensitive substring containment. -/
def containsCI (hay pat : String) : Bool :=
  charsSubstring (pat.data.map lowerChar) (hay.data.map lowerChar)

def isSpaceChar (c : Char) : Bool :=
  c.toNat = 32 || c.toNat = 9 || c.toNat = 10 || c.toNat = 13

/-- Python `str.strip()`. -/
def trimStr (s : String) : String :=
  ⟨((s.data.dropWhile isSpaceChar).reverse.dropWhile isSpaceChar).reverse⟩

def titleChars : Bool → List Char → List Char
  | _, [] => []
  | prevAlpha, c :: cs =>
    (if isAlphaChar c then (if prevAlpha then lowerChar c else upperChar c) else c)
      :: titleChars (isAlphaChar c) cs

/-- Python `str.title()`. -/
def titleStr (s : String) : String := ⟨titleChars false s.data⟩

/-- Python `str.split(sep)` on character lists; `fuel` bounds the recursion
(structurally) and is instantiated with the list length, which each step
strictly decreases, so the fuel-exhausted branch is never taken. -/
def splitOnCharsAux (sep : List Char) : Nat → List Char → List (List Char)
  | _, [] => [[]]
  | 0, l => [l]
  | fuel + 1, c :: cs =>
    if sep.isEmpty then
      [c :: cs]
    else if charsPrefixOf sep (c :: cs) then
      [] :: splitOnCharsAux sep fuel (cs.drop (sep.length - 1))
    else
      match splitOnCharsAux sep fuel cs with
      | [] => [[c]]
      | h :: t => (c :: h) :: t

/-- Python `str.split(sep)`. -/
def splitOnStr (sep : String) (s : String) : List String :=
  (splitOnCharsAux sep.data s.data.length s.data).map String.mk

/-- `Series.explode` after a row-wise list-producing map: concatenate the
per-row lists in row order. -/
def explodeL (f : α → List β) : List α → List β
  | [] => []
  | x :: xs => f x ++ explodeL f xs

def insertBy (le : α → α → Bool) (a : α) : List α → List α
  | [] => [a]
  | x :: xs => if le a x then a :: x :: xs else x :: insertBy le a xs

/-- `DataFrame.sort_values`: a comparison sort, modelled as insertion sort. -/
def sortBy (le : α → α → Bool) : List α → List α
  | [] => []
  | x :: xs => insertBy le x (sortBy le xs)

/-- Distinct values in order of first appearance, fuel-structured; the fuel
is instantiated with the list length, which dominates the recursion depth. -/
def firstDistinctAux : Nat → List String → List String
  | _, [] => []
  | 0, l => l
  | fuel + 1, x :: xs => x :: firstDistinctAux fuel (xs.filter (fun y => y ≠ x))

/-- Distinct values in order of first appearance (the index universe of
`value_counts` / `groupby`). -/
def firstDistinct (l : List String) : List String := firstDistinctAux l.length l

/-- `value_counts().idxmax()`: a value of greatest multiplicity (the first
such value encountered; ties are broken as pandas happens to). -/
def argmaxCount (l : List String) : String :=
  l.foldl (fun best g => if l.count best < l.count g then g else best) (l.headD "")

/-! ### Synthetic interaction generation, per variant -/

/-- `black.py` lines 58-67 (and `black2.py` lines 75-84): one record per
sampled row, with the raw (not yet clipped) rating
`round(np.random.normal(BaseRating, sigma), 1)` modelled as
`BaseRating` plus the noise draw, then `randint(60, 180)` and a date draw. -/
def mkRecordsRaw (user : String) : List Movie → Gen → List Interaction × Gen
  | [], g => ([], g)
  | r :: rs, g =>
    let pn := randNormalTenths g
    let pw := randInt 60 180 pn.2
    let pd := chooseDate pw.2
    let rest := mkRecordsRaw user rs pd.2
    (⟨user, r.movieID, r.movieName, r.genre, r.baseRating + pn.1, pw.1, pd.1⟩ :: rest.1,
      rest.2)

/-- `black3.py` lines 78-93: the rating
`np.clip(round(BaseRating + np.random.normal(0, 0.4), 1), 1, 5)` is clamped
inline, then `randint(60, 180)` and a date draw. -/
def mkRecords3 (user : String) : List Movie → Gen → List Interaction × Gen
  | [], g => ([], g)
  | r :: rs, g =>
    let pn := randNormalTenths g
    let pw := randInt 60 180 pn.2
    let pd := chooseDate pw.2
    let rest := mkRecords3 user rs pd.2
    (⟨user, r.movieID, r.movieName, r.genre, intClamp (r.baseRating + pn.1) 10 50,
        pw.1, pd.1⟩ :: rest.1,
      rest.2)

/-- `black4.py` lines 142-151: the rating is `np.random.randint(4, 6)` whole
stars (4 or 5, i.e. 40 or 50 tenths), then `randint(60, 180)` and a date
draw. -/
def mkRecords4 (user : String) : List Movie → Gen → List Interaction × Gen
  | [], g => ([], g)
  | r :: rs, g =>
    let pr := randInt 4 6 g
    let pw := randInt 60 180 pr.2
    let pd := chooseDate pw.2
    let rest := mkRecords4 user rs pd.2
    (⟨user, r.movieID, r.movieName, r.genre, (pr.1 : Int) * 10, pw.1, pd.1⟩ :: rest.1,
      rest.2)

/-- `black.py` line 47 / `black2.py` line 64. -/
def users : List String := ["U01", "U02", "U03", "U04", "U05"]

/-- `black3.py` lines 58-64. -/
def userPreferences3 : List (String × List String) :=
  [("U01", ["Drama"]), ("U02", ["Action", "Adventure"]), ("U03", ["Comedy"]),
   ("U04", ["Thriller", "Mystery"]), ("U05", ["Romance"])]

/-- `black4.py` lines 112-118. -/
def userPreferences4 : List (String × List String) :=
  [("U01", ["Drama"]), ("U02", ["Action"]), ("U03", ["Comedy"]),
   ("U04", ["Thriller"]), ("U05", ["Romance"])]

/-- `Genre.str.contains("|".join(genres), case=False)`: the joined pattern is
a regex alternation over the plain genre names. -/
def genreMatch (genres : List String) (m : Movie) : Bool :=
  genres.any (fun p => containsCI m.genre p)

/-- `black.py` lines 56-67: for each user, sample 60 catalog rows without
replacement from the global RNG and synthesize one record per row. -/
def blackSynth : List String → List Movie → Gen → List Interaction × Gen
  | [], _, g => ([], g)
  | u :: rest, movies, g =>
    let ps := sampleWR 60 g movies
    let pr := mkRecordsRaw u ps.1 ps.2
    let pm := blackSynth rest movies pr.2
    (pr.1 ++ pm.1, pm.2)

/-- `black.py` line 77: `df["UserRating"] = df["UserRating"].clip(1, 5)`,
applied row-wise; every other column is untouched. -/
def clipRating (r : Interaction) : Interaction :=
  ⟨r.userID, r.movieID, r.movieName, r.genre, intClamp r.userRating 10 50,
    r.watchTime, r.watchDate⟩

/-- `black.py` line 45 (and `black2.py` line 62, `black4.py` line 103):
`movies = movies.head(num_movies)`. -/
def blackCatalog (cat : List Movie) (numMovies : Nat) : List Movie := cat.take numMovies

/-- The full synthesized interaction table of `black.py` (lines 48-77) as a
function of the seed (10 in the script), the loaded catalog and the slider
value. -/
def blackInteractions (seed : Nat) (cat : List Movie) (numMovies : Nat) : List Interaction :=
  ((blackSynth users (blackCatalog cat numMovies) (mkGen seed)).1).map clipRating

/-- `black2.py` lines 64-94: identical synthesis code to `black.py` (the
script differs only in the seed passed to `np.random.seed`, 42, and the
noise sigma 0.4, which the noise model abstracts). -/
def black2Interactions : Nat → List Movie → Nat → List Interaction := blackInteractions

/-- `black3.py` line 53: `movies = movies.sample(num_movies, random_state=42)`
(a fresh `RandomState(42)` per call). -/
def black3Catalog (cat : List Movie) (numMovies : Nat) : List Movie :=
  (sampleWR numMovies (mkGen 42) cat).1

/-- `black3.py` lines 73-93: for each user, sample 60 rows with
`random_state=42` from the genre-filtered catalog, then synthesize records
using the globally seeded RNG. -/
def black3Synth : List (String × List String) → List Movie → Gen → List Interaction × Gen
  | [], _, g => ([], g)
  | (u, genres) :: rest, movies, g =>
    let preferred := (sampleWR 60 (mkGen 42) (movies.filter (genreMatch genres))).1
    let pr := mkRecords3 u preferred g
    let pm := black3Synth rest movies pr.2
    (pr.1 ++ pm.1, pm.2)

/-- The full synthesized interaction table of `black3.py` (lines 69-98) as a
function of the seed (42 in the script), the loaded catalog and the slider
value. -/
def black3Interactions (seed : Nat) (cat : List Movie) (numMovies : Nat) : List Interaction :=
  (black3Synth userPreferences3 (black3Catalog cat numMovies) (mkGen seed)).1

/-- `black4.py` line 103: `movies = movies.head(num_movies)`. -/
def black4Catalog (cat : List Movie) (numMovies : Nat) : List Movie := cat.take numMovies

/-- `black4.py` lines 134-151: for each user, take the first
`movies_per_user` genre-matching rows and synthesize records. -/
def black4Synth : List (String × List String) → List Movie → Nat → Gen → List Interaction × Gen
  | [], _, _, g => ([], g)
  | (u, genres) :: rest, movies, perUser, g =>
    let preferred := (movies.filter (genreMatch genres)).take perUser
    let pr := mkRecords4 u preferred g
    let pm := black4Synth rest movies perUser pr.2
    (pr.1 ++ pm.1, pm.2)

/-- The full synthesized interaction table of `black4.py` (lines 122-157),
with `movies_per_user = num_movies // len(user_preferences)` (line 131). -/
def black4Interactions (seed : Nat) (cat : List Movie) (numMovies : Nat) : List Interaction :=
  (black4Synth userPreferences4 (black4Catalog cat numMovies) (numMovies / 5) (mkGen seed)).1

/-! ### Aggregations -/

/-- `black.py` line 101: `genre_count = df["Genre"].value_counts()` evaluated
at key `g` — the genre strings are counted whole, without splitting. -/
def genreCountBlack (df : List Interaction) (g : String) : Nat :=
  (df.map Interaction.genre).count g

/-- `black3.py` lines 163-170:
`df["Genre"].str.split(", ").explode().value_counts()` evaluated at key `g`. -/
def genreCounts3 (df : List Interaction) (g : String) : Nat :=
  (explodeL (fun r => splitOnStr ", " r.genre) df).count g

/-- `black4.py` lines 166-171: `GenreList = Genre.str.split(",")` with each
part stripped and title-cased. -/
def black4GenreList (g : String) : List String :=
  (splitOnStr "," g).map (fun s => titleStr (trimStr s))

/-- `black4.py` lines 214-221:
`df.explode("GenreList")["GenreList"].value_counts()` evaluated at key `g`. -/
def genrePopularity4 (df : List Interaction) (g : String) : Nat :=
  (explodeL (fun r => black4GenreList r.genre) df).count g

/-- Specification-side count: the number of (interaction record, genre) pairs
whose genre component is `g`, obtained by splitting each record's
multi-genre string on `", "` into its individual genres. -/
def genrePairsSplit (df : List Interaction) (g : String) : Nat :=
  (df.map (fun r => ((splitOnStr ", " r.genre).count g))).sum

/-- Specification-side count for `black4.py`'s normalization: pairs after
splitting on `","` and strip/title-casing each part. -/
def genrePairs4 (df : List Interaction) (g : String) : Nat :=
  (df.map (fun r => ((black4GenreList r.genre).count g))).sum

/-! ### Recommendations -/

/-- The selected user's synthetic watched set, as MovieIDs
(`watched = set(user_data["MovieID"])`). -/
def watchedIDs (df : List Interaction) (user : String) : List Nat :=
  (df.filter (fun r => r.userID == user)).map Interaction.movieID

/-- Sum of the user ratings of the records with genre `g` (numerator of the
`groupby("Genre")["UserRating"].mean()` entry). -/
def genreRatingSum (df : List Interaction) (g : String) : Int :=
  ((df.filter (fun r => r.genre == g)).map Interaction.userRating).sum

/-- Number of records with genre `g` (denominator of the mean). -/
def genreRecCount (df : List Interaction) (g : String) : Nat :=
  (df.filter (fun r => r.genre == g)).length

/-- `mean rating of g1 < mean rating of g2`, compared by cross-multiplying
the (sum, count) pairs. -/
def meanLtB (df : List Interaction) (g1 g2 : String) : Bool :=
  genreRatingSum df g1 * (genreRecCount df g2 : Int) <
    genreRatingSum df g2 * (genreRecCount df g1 : Int)

/-- `black.py` lines 163-168 (and `black2.py` line 170): the user's favourite
genre is a whole genre string with maximal mean user rating. -/
def blackFavGenre (userDf : List Interaction) : String :=
  (firstDistinct (userDf.map Interaction.genre)).foldl
    (fun best g => if meanLtB userDf best g then g else best)
    ((firstDistinct (userDf.map Interaction.genre)).headD "")

/-- `black.py` lines 174-178 (and `black2.py` lines 175-179): the rows of
`df` feeding the recommendation table — genre equal to the favourite genre
and MovieID not in the watched set. -/
def blackRecPool (df : List Interaction) (fav : String) (watched : List Nat) : List Interaction :=
  df.filter (fun r => r.genre == fav && !(watched.contains r.movieID))

/-- The recommendation pool of `black.py` for the selected user. -/
def blackUserPool (df : List Interaction) (user : String) : List Interaction :=
  blackRecPool df (blackFavGenre (df.filter (fun r => r.userID == user)))
    (watchedIDs df user)

/-- Sum of ratings of the pool records with a given movie name. -/
def nameRatingSum (pool : List Interaction) (name : String) : Int :=
  ((pool.filter (fun r => r.movieName == name)).map Interaction.userRating).sum

/-- Number of pool records with a given movie name. -/
def nameRecCount (pool : List Interaction) (name : String) : Nat :=
  (pool.filter (fun r => r.movieName == name)).length

/-- `mean rating of n1 ≥ mean rating of n2` by cross-multiplication. -/
def nameMeanGe (pool : List Interaction) (n1 n2 : String) : Bool :=
  nameRatingSum pool n2 * (nameRecCount pool n1 : Int) ≤
    nameRatingSum pool n1 * (nameRecCount pool n2 : Int)

/-- `black.py` lines 174-183: group the pool by movie name, order the names
by mean rating descending and keep the first 7. -/
def blackRecommendations (df : List Interaction) (user : String) : List String :=
  (sortBy (nameMeanGe (blackUserPool df user))
      (firstDistinct ((blackUserPool df user).map Interaction.movieName))).take 7

/-- `black3.py` lines 227-233: favourite genre =
`Genre.str.split(", ").explode().value_counts().idxmax()`. -/
def black3FavGenre (userDf : List Interaction) : String :=
  argmaxCount (explodeL (fun r => splitOnStr ", " r.genre) userDf)

/-- `black3.py` lines 237-242: catalog movies whose genre contains the
favourite genre and whose MovieID is not watched, first 7. -/
def black3UserRecs (movies : List Movie) (df : List Interaction) (user : String) : List Movie :=
  (movies.filter (fun m =>
      containsCI m.genre (black3FavGenre (df.filter (fun r => r.userID == user))) &&
      !((watchedIDs df user).contains m.movieID))).take 7

/-- `black4.py` lines 284-289: favourite genre =
`explode("GenreList").value_counts().idxmax()` for the selected user. -/
def black4FavGenre (userDf : List Interaction) : String :=
  argmaxCount (explodeL (fun r => black4GenreList r.genre) userDf)

/-- Descending order on base rating (`sort_values("BaseRating", ascending=False)`). -/
def movieGe (m1 m2 : Movie) : Bool := m2.baseRating ≤ m1.baseRating

/-- `black4.py` lines 295-301: genre-matching catalog movies sorted by base
rating descending, first 7 — no exclusion of the watched set. -/
def black4UserRecs (movies : List Movie) (df : List Interaction) (user : String) : List Movie :=
  (sortBy movieGe (movies.filter (fun m =>
      containsCI m.genre (black4FavGenre (df.filter (fun r => r.userID == user)))))).take 7

/-- `black3.py` lines 257-264 / `black4.py` lines 321-330: the query movie is
the first catalog row whose name contains the typed text. -/
def findMovie (movies : List Movie) (input : String) : Option Movie :=
  (movies.filter (fun m => containsCI m.movieName input)).head?

/-- `black3.py` line 271: `movie["Genre"].split(",")[0]` (not stripped). -/
def primaryGenre3 (m : Movie) : String := (splitOnStr "," m.genre).headD ""

/-- `black4.py` line 338: `movie["Genre"].split(",")[0].strip()`. -/
def primaryGenre4 (m : Movie) : String := trimStr ((splitOnStr "," m.genre).headD "")

/-- `black3.py` lines 270-274: similar movies = catalog movies whose genre
contains the query's primary genre, rating at least the query's minus 0.5,
different MovieID; sorted by rating descending, first 10. -/
def similar3 (movies : List Movie) (movie : Movie) : List Movie :=
  (sortBy movieGe (movies.filter (fun m =>
      containsCI m.genre (primaryGenre3 movie) &&
      decide (movie.baseRating - 5 ≤ m.baseRating) &&
      m.movieID != movie.movieID))).take 10

/-- `black4.py` lines 341-345: as `similar3` but with the stripped primary
genre. -/
def similar4 (movies : List Movie) (movie : Movie) : List Movie :=
  (sortBy movieGe (movies.filter (fun m =>
      containsCI m.genre (primaryGenre4 movie) &&
      decide (movie.baseRating - 5 ≤ m.baseRating) &&
      m.movieID != movie.movieID))).take 10

/-! ### Top-level page flow (missing-file check) -/

/-- Result of one script run: either the `st.error`/`st.stop()` branch
(nothing loaded, synthesized or rendered), or the rendered page data (the
catalog in use and the synthesized table). -/
inductive AppResult (α : Type) where
  | halted : AppResult α
  | page : α → AppResult α
deriving Repr, DecidableEq

/-- `black.py` lines 28-30 then 32-77: stop when `asta.csv` is missing,
otherwise proceed to load, down-sample and synthesize. -/
def runBlack (fileExists : Bool) (cat : List Movie) (numMovies : Nat) :
    AppResult (List Movie × List Interaction) :=
  if fileExists then
    AppResult.page (blackCatalog cat numMovies, blackInteractions 10 cat numMovies)
  else
    AppResult.halted

/-- `black2.py` lines 21-23 (seed 42 at line 65). -/
def runBlack2 (fileExists : Bool) (cat : List Movie) (numMovies : Nat) :
    AppResult (List Movie × List Interaction) :=
  if fileExists then
    AppResult.page (blackCatalog cat numMovies, black2Interactions 42 cat numMovies)
  else
    AppResult.halted

/-- `black3.py` lines 24-26. -/
def runBlack3 (fileExists : Bool) (cat : List Movie) (numMovies : Nat) :
    AppResult (List Movie × List Interaction) :=
  if fileExists then
    AppResult.page (black3Catalog cat numMovies, black3Interactions 42 cat numMovies)
  else
    AppResult.halted

/-- `black4.py` lines 54-60. -/
def runBlack4 (fileExists : Bool) (cat : List Movie) (numMovies : Nat) :
    AppResult (List Movie × List Interaction) :=
  if fileExists then
    AppResult.page (black4Catalog cat numMovies, black4Interactions 42 cat numMovies)
  else
    AppResult.halted

/-! ### Helper lemmas -/

theorem intClamp_mem {x lo hi : Int} (h : lo ≤ hi) :
    lo ≤ intClamp x lo hi ∧ intClamp x lo hi ≤ hi :=
  ⟨le_max_left _ _, max_le h (min_le_right _ _)⟩

theorem randInt_fst_bounds {lo hi : Nat} (g : Gen) (h : lo < hi) :
    lo ≤ (randInt lo hi g).1 ∧ (randInt lo hi g).1 < hi := by
  have hmod : (genNext g).1 % (hi - lo) < hi - lo := Nat.mod_lt _ (by omega)
  show lo ≤ lo + (genNext g).1 % (hi - lo) ∧ lo + (genNext g).1 % (hi - lo) < hi
  omega

theorem chooseDate_fst_lt (g : Gen) : (chooseDate g).1 < 182 :=
  Nat.mod_lt _ (by omega)

theorem getD_cons_eraseIdx_perm {α : Type} (d : α) :
    ∀ (xs : List α) (i : Nat), i < xs.length →
      List.Perm xs (xs.getD i d :: xs.eraseIdx i)
  | [], i, h => by simp at h
  | x :: xs, 0, _ => by simp
  | x :: xs, i + 1, h => by
    have ih := getD_cons_eraseIdx_perm d xs i (by simpa using h)
    simpa using (ih.cons x).trans (List.Perm.swap (xs.getD i d) x (xs.eraseIdx i))

theorem sampleWR_subperm :
    ∀ (n : Nat) (g : Gen) (xs : List Movie), List.Subperm (sampleWR n g xs).1 xs
  | 0, _, xs => by
    simp only [sampleWR]
    exact List.nil_subperm
  | _ + 1, _, [] => by
    simp only [sampleWR]
    exact List.nil_subperm
  | n + 1, g, x :: xs => by
    have hlt : (genNext g).1 % (x :: xs).length < (x :: xs).length :=
      Nat.mod_lt _ (by simp)
    have hperm := getD_cons_eraseIdx_perm defaultMovie (x :: xs) _ hlt
    have ih := sampleWR_subperm n (genNext g).2
      ((x :: xs).eraseIdx ((genNext g).1 % (x :: xs).length))
    show List.Subperm
      ((x :: xs).getD ((genNext g).1 % (x :: xs).length) defaultMovie ::
        (sampleWR n (genNext g).2
          ((x :: xs).eraseIdx ((genNext g).1 % (x :: xs).length))).1) (x :: xs)
    exact ((List.subperm_cons _).2 ih).trans hperm.symm.subperm

theorem subperm_map {α β : Type} (f : α → β) {l1 l2 : List α}
    (h : List.Subperm l1 l2) : List.Subperm (l1.map f) (l2.map f) := by
  obtain ⟨u, hu, hs⟩ := h
  exact ⟨u.map f, hu.map f, hs.map f⟩

theorem nodup_of_subperm {α : Type} {l1 l2 : List α}
    (h : List.Subperm l1 l2) (h2 : l2.Nodup) : l1.Nodup := by
  obtain ⟨u, hu, hs⟩ := h
  exact hu.nodup_iff.mp (List.Nodup.sublist hs h2)

theorem mkRecordsRaw_mem {u : String} {r : Interaction} :
    ∀ {rows : List Movie} {g : Gen}, r ∈ (mkRecordsRaw u rows g).1 →
      r.userID = u ∧ 60 ≤ r.watchTime ∧ r.watchTime < 180 ∧ r.watchDate < 182 ∧
        ∃ m, m ∈ rows ∧ r.movieID = m.movieID ∧ r.movieName = m.movieName ∧
          r.genre = m.genre
  | [], g, h => by simp [mkRecordsRaw] at h
  | m :: rs, g, h => by
    simp only [mkRecordsRaw, List.mem_cons] at h
    rcases h with rfl | h
    · exact ⟨rfl, (randInt_fst_bounds _ (by omega)).1, (randInt_fst_bounds _ (by omega)).2,
        chooseDate_fst_lt _, m, List.mem_cons_self m rs, rfl, rfl, rfl⟩
    · obtain ⟨h1, h2, h3, h4, mm, hmm, h5⟩ := mkRecordsRaw_mem h
      exact ⟨h1, h2, h3, h4, mm, List.mem_cons_of_mem _ hmm, h5⟩

theorem mkRecords3_mem {u : String} {r : Interaction} :
    ∀ {rows : List Movie} {g : Gen}, r ∈ (mkRecords3 u rows g).1 →
      r.userID = u ∧ 10 ≤ r.userRating ∧ r.userRating ≤ 50 ∧
        60 ≤ r.watchTime ∧ r.watchTime < 180 ∧ r.watchDate < 182 ∧
        ∃ m, m ∈ rows ∧ r.movieID = m.movieID
  | [], g, h => by simp [mkRecords3] at h
  | m :: rs, g, h => by
    simp only [mkRecords3, List.mem_cons] at h
    rcases h with rfl | h
    · exact ⟨rfl, (intClamp_mem (by norm_num)).1, (intClamp_mem (by norm_num)).2,
        (randInt_fst_bounds _ (by omega)).1, (randInt_fst_bounds _ (by omega)).2,
        chooseDate_fst_lt _, m, List.mem_cons_self m rs, rfl⟩
    · obtain ⟨h1, h2, h3, h4, h5, h6, mm, hmm, h7⟩ := mkRecords3_mem h
      exact ⟨h1, h2, h3, h4, h5, h6, mm, List.mem_cons_of_mem _ hmm, h7⟩

theorem mkRecords4_mem {u : String} {r : Interaction} :
    ∀ {rows : List Movie} {g : Gen}, r ∈ (mkRecords4 u rows g).1 →
      r.userID = u ∧ 10 ≤ r.userRating ∧ r.userRating ≤ 50 ∧
        60 ≤ r.watchTime ∧ r.watchTime < 180 ∧ r.watchDate < 182 ∧
        ∃ m, m ∈ rows ∧ r.movieID = m.movieID
  | [], g, h => by simp [mkRecords4] at h
  | m :: rs, g, h => by
    simp only [mkRecords4, List.mem_cons] at h
    rcases h with rfl | h
    · have hr := @randInt_fst_bounds 4 6 g (by omega)
      refine ⟨rfl, ?_, ?_, (randInt_fst_bounds _ (by omega)).1,
        (randInt_fst_bounds _ (by omega)).2, chooseDate_fst_lt _,
        m, List.mem_cons_self m rs, rfl⟩
      · show (10 : Int) ≤ ((randInt 4 6 g).1 : Int) * 10
        omega
      · show ((randInt 4 6 g).1 : Int) * 10 ≤ 50
        omega
    · obtain ⟨h1, h2, h3, h4, h5, h6, mm, hmm, h7⟩ := mkRecords4_mem h
      exact ⟨h1, h2, h3, h4, h5, h6, mm, List.mem_cons_of_mem _ hmm, h7⟩

theorem mkRecordsRaw_map_movieID (u : String) :
    ∀ (rows : List Movie) (g : Gen),
      (mkRecordsRaw u rows g).1.map Interaction.movieID = rows.map Movie.movieID
  | [], _ => rfl
  | m :: rs, g => by
    simp only [mkRecordsRaw, List.map_cons]
    exact congrArg _ (mkRecordsRaw_map_movieID u rs _)

theorem mkRecords3_map_movieID (u : String) :
    ∀ (rows : List Movie) (g : Gen),
      (mkRecords3 u rows g).1.map Interaction.movieID = rows.map Movie.movieID
  | [], _ => rfl
  | m :: rs, g => by
    simp only [mkRecords3, List.map_cons]
    exact congrArg _ (mkRecords3_map_movieID u rs _)

theorem blackSynth_mem {r : Interaction} :
    ∀ (us : List String) (movies : List Movie) (g : Gen),
      r ∈ (blackSynth us movies g).1 →
        r.userID ∈ us ∧ 60 ≤ r.watchTime ∧ r.watchTime < 180 ∧ r.watchDate < 182 ∧
          ∃ m, m ∈ movies ∧ r.movieID = m.movieID
  | [], _, _, h => by simp [blackSynth] at h
  | u :: rest, movies, g, h => by
    simp only [blackSynth, List.mem_append] at h
    rcases h with h | h
    · obtain ⟨h1, h2, h3, h4, m, hm, h5, -, -⟩ := mkRecordsRaw_mem h
      exact ⟨h1 ▸ List.mem_cons_self u rest, h2, h3, h4, m,
        (sampleWR_subperm 60 g movies).subset hm, h5⟩
    · obtain ⟨h1, h2, h3, h4, hm⟩ := blackSynth_mem rest movies _ h
      exact ⟨List.mem_cons_of_mem _ h1, h2, h3, h4, hm⟩

theorem black3Synth_mem {r : Interaction} :
    ∀ (prefs : List (String × List String)) (movies : List Movie) (g : Gen),
      r ∈ (black3Synth prefs movies g).1 →
        r.userID ∈ prefs.map Prod.fst ∧ 10 ≤ r.userRating ∧ r.userRating ≤ 50 ∧
          60 ≤ r.watchTime ∧ r.watchTime < 180 ∧ r.watchDate < 182 ∧
          ∃ m, m ∈ movies ∧ r.movieID = m.movieID
  | [], _, _, h => by simp [black3Synth] at h
  | (u, genres) :: rest, movies, g, h => by
    simp only [black3Synth, List.mem_append] at h
    rcases h with h | h
    · obtain ⟨h1, h2, h3, h4, h5, h6, m, hm, h7⟩ := mkRecords3_mem h
      refine ⟨?_, h2, h3, h4, h5, h6, m, ?_, h7⟩
      · rw [List.map_cons, h1]
        exact List.mem_cons_self _ _
      · exact (List.filter_sublist movies).subset
          ((sampleWR_subperm 60 (mkGen 42) _).subset hm)
    · obtain ⟨h1, h2, h3, h4, h5, h6, hm⟩ := black3Synth_mem rest movies _ h
      exact ⟨by rw [List.map_cons]; exact List.mem_cons_of_mem _ h1, h2, h3, h4, h5, h6, hm⟩

theorem black4Synth_mem {r : Interaction} :
    ∀ (prefs : List (String × List String)) (movies : List Movie) (perUser : Nat) (g : Gen),
      r ∈ (black4Synth prefs movies perUser g).1 →
        r.userID ∈ prefs.map Prod.fst ∧ 10 ≤ r.userRating ∧ r.userRating ≤ 50 ∧
          60 ≤ r.watchTime ∧ r.watchTime < 180 ∧ r.watchDate < 182 ∧
          ∃ m, m ∈ movies ∧ r.movieID = m.movieID
  | [], _, _, _, h => by simp [black4Synth] at h
  | (u, genres) :: rest, movies, perUser, g, h => by
    simp only [black4Synth, List.mem_append] at h
    rcases h with h | h
    · obtain ⟨h1, h2, h3, h4, h5, h6, m, hm, h7⟩ := mkRecords4_mem h
      refine ⟨?_, h2, h3, h4, h5, h6, m, ?_, h7⟩
      · rw [List.map_cons, h1]
        exact List.mem_cons_self _ _
      · exact (List.filter_sublist movies).subset (List.take_subset _ _ hm)
    · obtain ⟨h1, h2, h3, h4, h5, h6, hm⟩ := black4Synth_mem rest movies perUser _ h
      exact ⟨by rw [List.map_cons]; exact List.mem_cons_of_mem _ h1, h2, h3, h4, h5, h6, hm⟩

theorem blackInteractions_mem {seed n : Nat} {cat : List Movie} {r : Interaction}
    (h : r ∈ blackInteractions seed cat n) :
    r.userID ∈ users ∧ 10 ≤ r.userRating ∧ r.userRating ≤ 50 ∧
      60 ≤ r.watchTime ∧ r.watchTime < 180 ∧ r.watchDate < 182 ∧
      ∃ m, m ∈ blackCatalog cat n ∧ r.movieID = m.movieID := by
  simp only [blackInteractions, List.mem_map] at h
  obtain ⟨r0, hr0, rfl⟩ := h
  obtain ⟨h1, h2, h3, h4, hm⟩ := blackSynth_mem _ _ _ hr0
  simp only [clipRating]
  exact ⟨h1, (intClamp_mem (by norm_num)).1, (intClamp_mem (by norm_num)).2, h2, h3, h4, hm⟩

theorem black3Interactions_mem {seed n : Nat} {cat : List Movie} {r : Interaction}
    (h : r ∈ black3Interactions seed cat n) :
    r.userID ∈ userPreferences3.map Prod.fst ∧ 10 ≤ r.userRating ∧ r.userRating ≤ 50 ∧
      60 ≤ r.watchTime ∧ r.watchTime < 180 ∧ r.watchDate < 182 ∧
      ∃ m, m ∈ black3Catalog cat n ∧ r.movieID = m.movieID :=
  black3Synth_mem _ _ _ h

theorem black4Interactions_mem {seed n : Nat} {cat : List Movie} {r : Interaction}
    (h : r ∈ black4Interactions seed cat n) :
    r.userID ∈ userPreferences4.map Prod.fst ∧ 10 ≤ r.userRating ∧ r.userRating ≤ 50 ∧
      60 ≤ r.watchTime ∧ r.watchTime < 180 ∧ r.watchDate < 182 ∧
      ∃ m, m ∈ black4Catalog cat n ∧ r.movieID = m.movieID :=
  black4Synth_mem _ _ _ _ h

theorem nodup_sample_movieIDs {movies : List Movie} (n : Nat) (g : Gen)
    (hm : (movies.map Movie.movieID).Nodup) :
    ((sampleWR n g movies).1.map Movie.movieID).Nodup :=
  nodup_of_subperm (subperm_map Movie.movieID (sampleWR_subperm n g movies)) hm

theorem filter_userID_blackSynth_nodup :
    ∀ (us : List String) (movies : List Movie) (g : Gen) (u : String),
      us.Nodup → (movies.map Movie.movieID).Nodup →
      ((((blackSynth us movies g).1).filter (fun r => r.userID == u)).map
        Interaction.movieID).Nodup
  | [], _, _, _, _, _ => by simp [blackSynth]
  | u1 :: rest, movies, g, u, hus, hm => by
    simp only [blackSynth, List.filter_append, List.map_append]
    have hblock : ∀ x ∈ (mkRecordsRaw u1 (sampleWR 60 g movies).1
        (sampleWR 60 g movies).2).1, x.userID = u1 := fun x hx => (mkRecordsRaw_mem hx).1
    by_cases hEq : u1 = u
    · subst hEq
      rw [List.filter_eq_self.mpr (fun x hx => by simp [hblock x hx]),
        List.filter_eq_nil_iff.mpr (fun x hx => ?_), mkRecordsRaw_map_movieID]
      · simpa using nodup_sample_movieIDs 60 g hm
      · have hx1 := (blackSynth_mem rest movies _ hx).1
        simp only [beq_iff_eq]
        intro hx2
        rw [hx2] at hx1
        exact (List.nodup_cons.mp hus).1 hx1
    · rw [List.filter_eq_nil_iff.mpr (fun x hx => by simp [hblock x hx, hEq])]
      simpa using filter_userID_blackSynth_nodup rest movies _ u (List.nodup_cons.mp hus).2 hm

theorem filter_userID_black3Synth_nodup :
    ∀ (prefs : List (String × List String)) (movies : List Movie) (g : Gen) (u : String),
      (prefs.map Prod.fst).Nodup → (movies.map Movie.movieID).Nodup →
      ((((black3Synth prefs movies g).1).filter (fun r => r.userID == u)).map
        Interaction.movieID).Nodup
  | [], _, _, _, _, _ => by simp [black3Synth]
  | (u1, genres) :: rest, movies, g, u, hus, hm => by
    simp only [black3Synth, List.filter_append, List.map_append]
    simp only [List.map_cons, List.nodup_cons] at hus
    have hblock : ∀ x ∈ (mkRecords3 u1
        (sampleWR 60 (mkGen 42) (movies.filter (genreMatch genres))).1 g).1,
        x.userID = u1 := fun x hx => (mkRecords3_mem hx).1
    have hfm : ((movies.filter (genreMatch genres)).map Movie.movieID).Nodup :=
      List.Nodup.sublist ((List.filter_sublist movies).map Movie.movieID) hm
    by_cases hEq : u1 = u
    · subst hEq
      have hself : List.filter (fun r => r.userID == u1)
          (mkRecords3 u1 (sampleWR 60 (mkGen 42)
            (movies.filter (genreMatch genres))).1 g).1 =
          (mkRecords3 u1 (sampleWR 60 (mkGen 42)
            (movies.filter (genreMatch genres))).1 g).1 :=
        List.filter_eq_self.mpr (fun x hx => by simp [hblock x hx])
      have hnil : List.filter (fun r => r.userID == u1)
          (black3Synth rest movies (mkRecords3 u1 (sampleWR 60 (mkGen 42)
            (movies.filter (genreMatch genres))).1 g).2).1 = [] :=
        List.filter_eq_nil_iff.mpr (fun x hx => by
          have hx1 := (black3Synth_mem rest movies _ hx).1
          simp only [beq_iff_eq]
          intro hx2
          rw [hx2] at hx1
          exact hus.1 hx1)
      rw [hself, hnil, mkRecords3_map_movieID]
      simpa using nodup_sample_movieIDs 60 (mkGen 42) hfm
    · have hnil : List.filter (fun r => r.userID == u)
          (mkRecords3 u1 (sampleWR 60 (mkGen 42)
            (movies.filter (genreMatch genres))).1 g).1 = [] :=
        List.filter_eq_nil_iff.mpr (fun x hx => by simp [hblock x hx, hEq])
      rw [hnil]
      simpa using filter_userID_black3Synth_nodup rest movies _ u hus.2 hm

theorem watchedIDs_map_clip :
    ∀ (l : List Interaction) (u : String),
      watchedIDs (l.map clipRating) u = watchedIDs l u
  | [], _ => rfl
  | r :: rs, u => by
    have ih := watchedIDs_map_clip rs u
    simp only [watchedIDs, List.map_cons, List.filter_cons, clipRating] at *
    by_cases h : r.userID == u
    · simp only [h, if_true, List.map_cons]
      exact congrArg _ ih
    · simp only [h, if_false]
      exact ih

theorem insertBy_perm (le : α → α → Bool) (a : α) :
    ∀ l : List α, List.Perm (insertBy le a l) (a :: l)
  | [] => List.Perm.refl _
  | x :: xs => by
    simp only [insertBy]
    by_cases h : le a x = true
    · simp [h]
    · simp only [h, if_false]
      exact ((insertBy_perm le a xs).cons x).trans (List.Perm.swap a x xs)

theorem sortBy_perm (le : α → α → Bool) :
    ∀ l : List α, List.Perm (sortBy le l) l
  | [] => List.Perm.refl _
  | x :: xs => (insertBy_perm le x (sortBy le xs)).trans ((sortBy_perm le xs).cons x)

theorem pairwise_insertBy {le : α → α → Bool}
    (htot : ∀ a b, le a b = true ∨ le b a = true)
    (htrans : ∀ a b c, le a b = true → le b c = true → le a c = true) (a : α) :
    ∀ l : List α, l.Pairwise (fun x y => le x y = true) →
      (insertBy le a l).Pairwise (fun x y => le x y = true)
  | [], _ => by simp [insertBy]
  | x :: xs, h => by
    obtain ⟨hx, hxs⟩ := List.pairwise_cons.mp h
    simp only [insertBy]
    by_cases hax : le a x = true
    · simp only [hax, if_true]
      refine List.pairwise_cons.mpr ⟨?_, h⟩
      intro b hb
      rcases List.mem_cons.mp hb with rfl | hb
      · exact hax
      · exact htrans a x b hax (hx b hb)
    · simp only [hax, if_false]
      have hxa : le x a = true := (htot a x).resolve_left hax
      refine List.pairwise_cons.mpr ⟨?_, pairwise_insertBy htot htrans a xs hxs⟩
      intro b hb
      rcases List.mem_cons.mp ((insertBy_perm le a xs).mem_iff.mp hb) with rfl | hb
      · exact hxa
      · exact hx b hb

theorem pairwise_sortBy {le : α → α → Bool}
    (htot : ∀ a b, le a b = true ∨ le b a = true)
    (htrans : ∀ a b c, le a b = true → le b c = true → le a c = true) :
    ∀ l : List α, (sortBy le l).Pairwise (fun x y => le x y = true)
  | [] => List.Pairwise.nil
  | x :: xs => pairwise_insertBy htot htrans x _ (pairwise_sortBy htot htrans xs)

theorem movieGe_total : ∀ a b : Movie, movieGe a b = true ∨ movieGe b a = true := by
  intro a b
  simp only [movieGe, decide_eq_true_eq]
  omega

theorem movieGe_trans :
    ∀ a b c : Movie, movieGe a b = true → movieGe b c = true → movieGe a c = true := by
  intro a b c
  simp only [movieGe, decide_eq_true_eq]
  omega

theorem firstDistinctAux_subset :
    ∀ (fuel : Nat) (l : List String) (x : String), x ∈ firstDistinctAux fuel l → x ∈ l
  | _, [], _, h => by simp [firstDistinctAux] at h
  | 0, _ :: _, _, h => h
  | fuel + 1, a :: l, x, h => by
    simp only [firstDistinctAux, List.mem_cons] at h
    rcases h with rfl | h
    · exact List.mem_cons_self _ _
    · exact List.mem_cons_of_mem _
        (List.mem_filter.mp (firstDistinctAux_subset fuel _ x h)).1

theorem firstDistinct_subset {l : List String} {x : String}
    (h : x ∈ firstDistinct l) : x ∈ l :=
  firstDistinctAux_subset l.length l x h

theorem count_explodeL {β : Type} [BEq β] (f : α → List β) (b : β) :
    ∀ l : List α, (explodeL f l).count b = (l.map (fun x => (f x).count b)).sum
  | [] => rfl
  | x :: xs => by
    simp only [explodeL, List.count_append, List.map_cons, List.sum_cons]
    exact congrArg _ (count_explodeL f b xs)

/-! ### Concrete inputs used by witnesses and counterexamples -/

/-- A small concrete catalog. -/
def catEx : List Movie := [⟨1, "Alpha", "Drama", 30⟩, ⟨2, "Beta", "Drama", 40⟩]

/-- The first record of a concrete `black.py` run. -/
def recEx : Interaction := (blackInteractions 10 catEx 1).headD ⟨"", 0, "", "", 0, 0, 0⟩

/-! ### Claims -/

/-- C1: For every synthesized interaction record produced by any variant
(`black.py`, `black2.py`, `black3.py`, `black4.py`), the fabricated user
rating lies in the closed interval [1, 5] — in tenths, [10, 50].  In
`black.py`/`black2.py` the raw normal rating column is clipped to [1, 5]
afterwards, in `black3.py` it is clamped inline by `np.clip`, and in
`black4.py` it is drawn directly from {4, 5} ⊆ [1, 5]. -/
theorem c1_rating_in_unit_interval (seed n : Nat) (cat : List Movie) (r : Interaction)
    (h : r ∈ blackInteractions seed cat n ∨ r ∈ black2Interactions seed cat n ∨
      r ∈ black3Interactions seed cat n ∨ r ∈ black4Interactions seed cat n) :
    10 ≤ r.userRating ∧ r.userRating ≤ 50 := by
  rcases h with h | h | h | h
  · exact ⟨(blackInteractions_mem h).2.1, (blackInteractions_mem h).2.2.1⟩
  · exact ⟨(blackInteractions_mem h).2.1, (blackInteractions_mem h).2.2.1⟩
  · exact ⟨(black3Interactions_mem h).2.1, (black3Interactions_mem h).2.2.1⟩
  · exact ⟨(black4Interactions_mem h).2.1, (black4Interactions_mem h).2.2.1⟩

theorem c1_witness : 10 ≤ recEx.userRating ∧ recEx.userRating ≤ 50 :=
  c1_rating_in_unit_interval 10 1 catEx recEx (Or.inl (by decide))

/-- C3: For a fixed random seed, a fixed loaded catalog and a fixed slider
value, two runs of the synthetic-interaction generation produce identical
interaction tables (same records in the same order, including ratings,
watch times and watch dates).  In the embedding the globally seeded RNG is
an explicit generator, so each synthesis pipeline is a pure function of
(seed, catalog, slider); determinism is the statement that two runs with
equal inputs have equal tables. -/
theorem c3_synthesis_deterministic (s1 s2 n1 n2 : Nat) (cat1 cat2 : List Movie)
    (hs : s1 = s2) (hc : cat1 = cat2) (hn : n1 = n2) :
    blackInteractions s1 cat1 n1 = blackInteractions s2 cat2 n2 ∧
      black3Interactions s1 cat1 n1 = black3Interactions s2 cat2 n2 := by
  subst hs
  subst hc
  subst hn
  exact ⟨rfl, rfl⟩

theorem c3_witness :
    blackInteractions 10 catEx 1 = blackInteractions 10 catEx 1 ∧
      black3Interactions 10 catEx 1 = black3Interactions 10 catEx 1 :=
  c3_synthesis_deterministic 10 10 1 1 catEx catEx rfl rfl rfl

/-- C5: Every synthesized interaction's watch date lies in the fixed window
2024-01-01 through 2024-06-30 (`dateWindow`, 182 days, as 0-based day
offsets); the draw is `np.random.choice` over exactly that `date_range`,
modelled as a generator-derived index modulo 182. -/
theorem c5_watchdate_in_window (seed n : Nat) (cat : List Movie) (r : Interaction)
    (h : r ∈ blackInteractions seed cat n ∨ r ∈ black2Interactions seed cat n ∨
      r ∈ black3Interactions seed cat n ∨ r ∈ black4Interactions seed cat n) :
    r.watchDate ∈ dateWindow := by
  have hb : r.watchDate < 182 := by
    rcases h with h | h | h | h
    · exact (blackInteractions_mem h).2.2.2.2.2.1
    · exact (blackInteractions_mem h).2.2.2.2.2.1
    · exact (black3Interactions_mem h).2.2.2.2.2.1
    · exact (black4Interactions_mem h).2.2.2.2.2.1
  exact List.mem_range.mpr hb

theorem c5_witness : recEx.watchDate ∈ dateWindow :=
  c5_watchdate_in_window 10 1 catEx recEx (Or.inl (by decide))

/-- C6: Every synthesized interaction's watch duration is drawn by
`np.random.randint(60, 180)`; in particular, for each user the (uniform)
range [60, 180) is a range containing all of that user's watch durations,
witnessing the claim's user-specific range for every user and every
variant. -/
theorem c6_watchtime_user_range (seed n : Nat) (cat : List Movie) (user : String)
    (r : Interaction) (hu : r.userID = user)
    (h : r ∈ blackInteractions seed cat n ∨ r ∈ black2Interactions seed cat n ∨
      r ∈ black3Interactions seed cat n ∨ r ∈ black4Interactions seed cat n) :
    60 ≤ r.watchTime ∧ r.watchTime < 180 := by
  rcases h with h | h | h | h
  · exact ⟨(blackInteractions_mem h).2.2.2.1, (blackInteractions_mem h).2.2.2.2.1⟩
  · exact ⟨(blackInteractions_mem h).2.2.2.1, (blackInteractions_mem h).2.2.2.2.1⟩
  · exact ⟨(black3Interactions_mem h).2.2.2.1, (black3Interactions_mem h).2.2.2.2.1⟩
  · exact ⟨(black4Interactions_mem h).2.2.2.1, (black4Interactions_mem h).2.2.2.2.1⟩

theorem c6_witness : 60 ≤ recEx.watchTime ∧ recEx.watchTime < 180 :=
  c6_watchtime_user_range 10 1 catEx "U01" recEx (by decide) (Or.inl (by decide))

/-- C7: The catalog is read once per session and after the slider-controlled
down-sampling it is never modified: the page of every variant renders
exactly the down-sampled catalog value (synthesis, aggregation and
recommendation are pure functions of it), and every record of the
down-sampled catalog is a record of the loaded file. -/
theorem c7_catalog_immutable (cat : List Movie) (n : Nat) (m : Movie) :
    (m ∈ blackCatalog cat n → m ∈ cat) ∧
    (m ∈ black3Catalog cat n → m ∈ cat) ∧
    (m ∈ black4Catalog cat n → m ∈ cat) ∧
    runBlack true cat n = AppResult.page (blackCatalog cat n, blackInteractions 10 cat n) ∧
    runBlack3 true cat n = AppResult.page (black3Catalog cat n, black3Interactions 42 cat n) ∧
    runBlack4 true cat n = AppResult.page (black4Catalog cat n, black4Interactions 42 cat n) :=
  ⟨fun h => List.take_subset n cat h,
   fun h => (sampleWR_subperm n (mkGen 42) cat).subset h,
   fun h => List.take_subset n cat h, rfl, rfl, rfl⟩

theorem c7_witness : (⟨1, "Alpha", "Drama", 30⟩ : Movie) ∈ catEx :=
  (c7_catalog_immutable catEx 1 ⟨1, "Alpha", "Drama", 30⟩).1 (by decide)

/-- C8: If the catalog file does not exist, every variant stops in the
missing-file branch before loading, synthesizing or producing any output
(`AppResult.halted`); when the file exists, the missing-file branch is not
taken (the run renders a page). -/
theorem c8_missing_file_halts (cat : List Movie) (n : Nat) :
    (runBlack false cat n = AppResult.halted ∧
      runBlack2 false cat n = AppResult.halted ∧
      runBlack3 false cat n = AppResult.halted ∧
      runBlack4 false cat n = AppResult.halted) ∧
    (runBlack true cat n ≠ AppResult.halted ∧
      runBlack2 true cat n ≠ AppResult.halted ∧
      runBlack3 true cat n ≠ AppResult.halted ∧
      runBlack4 true cat n ≠ AppResult.halted) := by
  refine ⟨⟨rfl, rfl, rfl, rfl⟩, ?_, ?_, ?_, ?_⟩ <;>
    simp [runBlack, runBlack2, runBlack3, runBlack4]

/-- C9: In the variants that sample each user's movies (`black.py`,
`black2.py`, `black3.py`), sampling is without replacement, so — the
catalog's MovieIDs being pairwise distinct, as identifiers are — no user
has two interaction records with the same MovieID. -/
theorem c9_user_movieids_distinct (seed n : Nat) (cat : List Movie) (user : String)
    (h : (cat.map Movie.movieID).Nodup) :
    (watchedIDs (blackInteractions seed cat n) user).Nodup ∧
    (watchedIDs (black2Interactions seed cat n) user).Nodup ∧
    (watchedIDs (black3Interactions seed cat n) user).Nodup := by
  have hcatTake : ((blackCatalog cat n).map Movie.movieID).Nodup := by
    rw [blackCatalog, List.map_take]
    exact List.Nodup.sublist (List.take_sublist _ _) h
  have hblack : (watchedIDs (blackInteractions seed cat n) user).Nodup := by
    rw [blackInteractions, watchedIDs_map_clip]
    exact filter_userID_blackSynth_nodup users _ _ user (by decide) hcatTake
  have hcat3 : ((black3Catalog cat n).map Movie.movieID).Nodup :=
    nodup_sample_movieIDs n (mkGen 42) h
  exact ⟨hblack, hblack,
    filter_userID_black3Synth_nodup userPreferences3 _ _ user (by decide) hcat3⟩

theorem c9_witness :
    (watchedIDs (blackInteractions 10 catEx 1) "U01").Nodup ∧
    (watchedIDs (black2Interactions 10 catEx 1) "U01").Nodup ∧
    (watchedIDs (black3Interactions 10 catEx 1) "U01").Nodup :=
  c9_user_movieids_distinct 10 1 catEx "U01" (by decide)

theorem similar_spec_aux (movies : List Movie) (movie : Movie) (pg : String) :
    (∀ m ∈ (sortBy movieGe (movies.filter (fun m =>
        containsCI m.genre pg && decide (movie.baseRating - 5 ≤ m.baseRating) &&
        m.movieID != movie.movieID))).take 10,
      m ∈ movies ∧ m.movieID ≠ movie.movieID ∧ movie.baseRating - 5 ≤ m.baseRating ∧
        containsCI m.genre pg = true) ∧
    ((sortBy movieGe (movies.filter (fun m =>
        containsCI m.genre pg && decide (movie.baseRating - 5 ≤ m.baseRating) &&
        m.movieID != movie.movieID))).take 10).Pairwise
      (fun a b => b.baseRating ≤ a.baseRating) ∧
    ((sortBy movieGe (movies.filter (fun m =>
        containsCI m.genre pg && decide (movie.baseRating - 5 ≤ m.baseRating) &&
        m.movieID != movie.movieID))).take 10).length ≤ 10 := by
  refine ⟨?_, ?_, List.length_take_le _ _⟩
  · intro m hm
    have h1 := List.take_subset _ _ hm
    have h2 := (sortBy_perm movieGe _).mem_iff.mp h1
    obtain ⟨hmem, hp⟩ := List.mem_filter.mp h2
    simp only [Bool.and_eq_true, decide_eq_true_eq, bne_iff_ne] at hp
    exact ⟨hmem, hp.2, hp.1.2, hp.1.1⟩
  · have hs := (pairwise_sortBy movieGe_total movieGe_trans
      (movies.filter (fun m =>
        containsCI m.genre pg && decide (movie.baseRating - 5 ≤ m.baseRating) &&
        m.movieID != movie.movieID))).sublist (List.take_sublist 10 _)
    exact hs.imp (fun hab => by simpa [movieGe, decide_eq_true_eq] using hab)

/-- C10: In the movie-based recommendation of `black3.py` and `black4.py`,
when a query movie is found, the similar-movies list never contains the
query movie itself (every entry has a different MovieID), contains only
catalog movies whose base rating is at least the query's minus 0.5 (in
tenths, minus 5) and whose genre string contains the query's primary genre
(`split(",")[0]`, stripped in `black4.py`), is sorted by base rating in
descending order, and has at most 10 entries. -/
theorem c10_similar_movies_spec (movies : List Movie) (input : String) (movie : Movie)
    (hfind : findMovie movies input = some movie) :
    ((∀ m ∈ similar3 movies movie, m ∈ movies ∧ m.movieID ≠ movie.movieID ∧
        movie.baseRating - 5 ≤ m.baseRating ∧
        containsCI m.genre (primaryGenre3 movie) = true) ∧
      (similar3 movies movie).Pairwise (fun a b => b.baseRating ≤ a.baseRating) ∧
      (similar3 movies movie).length ≤ 10) ∧
    ((∀ m ∈ similar4 movies movie, m ∈ movies ∧ m.movieID ≠ movie.movieID ∧
        movie.baseRating - 5 ≤ m.baseRating ∧
        containsCI m.genre (primaryGenre4 movie) = true) ∧
      (similar4 movies movie).Pairwise (fun a b => b.baseRating ≤ a.baseRating) ∧
      (similar4 movies movie).length ≤ 10) := by
  clear hfind
  exact ⟨similar_spec_aux movies movie (primaryGenre3 movie),
    similar_spec_aux movies movie (primaryGenre4 movie)⟩

theorem c10_witness :
    (similar3 catEx ⟨1, "Alpha", "Drama", 30⟩).length ≤ 10 ∧
      (similar4 catEx ⟨1, "Alpha", "Drama", 30⟩).length ≤ 10 :=
  ⟨(c10_similar_movies_spec catEx "alpha" ⟨1, "Alpha", "Drama", 30⟩ (by decide)).1.2.2,
   (c10_similar_movies_spec catEx "alpha" ⟨1, "Alpha", "Drama", 30⟩ (by decide)).2.2.2⟩

theorem blackRecommendations_mem_pool {df : List Interaction} {user name : String}
    (h : name ∈ blackRecommendations df user) :
    name ∈ (blackUserPool df user).map Interaction.movieName := by
  simp only [blackRecommendations] at h
  have h1 := List.take_subset 7 _ h
  have h2 := (sortBy_perm (nameMeanGe (blackUserPool df user)) _).mem_iff.mp h1
  exact firstDistinct_subset h2

theorem blackRecPool_not_watched {df : List Interaction} {fav : String}
    {watched : List Nat} {r : Interaction} (h : r ∈ blackRecPool df fav watched) :
    r.movieID ∉ watched := by
  have hp := (List.mem_filter.mp h).2
  simp only [Bool.and_eq_true, Bool.not_eq_true'] at hp
  have hc := hp.2
  simp at hc
  exact hc

theorem black3UserRecs_not_watched {movies : List Movie} {df : List Interaction}
    {user : String} {m : Movie} (h : m ∈ black3UserRecs movies df user) :
    m.movieID ∉ watchedIDs df user := by
  simp only [black3UserRecs] at h
  have h1 := List.take_subset 7 _ h
  have hp := (List.mem_filter.mp h1).2
  simp only [Bool.and_eq_true, Bool.not_eq_true'] at hp
  have hc := hp.2
  simp at hc
  exact hc

set_option maxRecDepth 1000000

/-- A concrete catalog on which `black4.py`'s user-based recommendations
overlap the watched set: 7 Drama movies (ratings 3.0–3.6) and 93 Comedy
movies.  With the slider at 100, U01's synthetic history is exactly the 7
Drama movies, and the personalized recommendations are those same 7 movies. -/
def catC2 : List Movie :=
  (List.range 7).map (fun i => ⟨i, "D", "Drama", 30 + i⟩) ++
  (List.range 93).map (fun i => ⟨7 + i, "C", "Comedy", 30⟩)

/-- C2 counterexample: `black4.py`'s user-based recommendation
(lines 295-301) filters the catalog only by the favourite genre and never
excludes the watched set; on `catC2` the movie with MovieID 6 is both in
U01's synthetic watched set and in U01's recommendation list, so the claim
fails for `black4.py`. -/
theorem c2_counterexample :
    (⟨6, "D", "Drama", 36⟩ : Movie) ∈
        black4UserRecs (black4Catalog catC2 100) (black4Interactions 42 catC2 100) "U01" ∧
      6 ∈ watchedIDs (black4Interactions 42 catC2 100) "U01" := by
  decide

/-- C2 (amended): in `black.py`, `black2.py` and `black3.py` the user-based
recommendation output never includes a catalog item already present in the
selected user's synthetic watched set: in `black3.py` every recommended
catalog movie has an unwatched MovieID, and in `black.py`/`black2.py` every
recommended movie name comes from the recommendation pool, all of whose
records have unwatched MovieIDs.  `black4.py`'s user-based recommendations
apply only a genre filter and can include already-watched items
(`c2_counterexample`). -/
theorem c2_amended_exclusion (seed n : Nat) (cat : List Movie) (user : String) :
    (∀ name ∈ blackRecommendations (blackInteractions seed cat n) user,
        name ∈ (blackUserPool (blackInteractions seed cat n) user).map
          Interaction.movieName) ∧
    (∀ r ∈ blackUserPool (blackInteractions seed cat n) user,
        r.movieID ∉ watchedIDs (blackInteractions seed cat n) user) ∧
    (∀ name ∈ blackRecommendations (black2Interactions seed cat n) user,
        name ∈ (blackUserPool (black2Interactions seed cat n) user).map
          Interaction.movieName) ∧
    (∀ r ∈ blackUserPool (black2Interactions seed cat n) user,
        r.movieID ∉ watchedIDs (black2Interactions seed cat n) user) ∧
    (∀ m ∈ black3UserRecs (black3Catalog cat n) (black3Interactions seed cat n) user,
        m.movieID ∉ watchedIDs (black3Interactions seed cat n) user) :=
  ⟨fun _ h => blackRecommendations_mem_pool h,
   fun _ h => blackRecPool_not_watched h,
   fun _ h => blackRecommendations_mem_pool h,
   fun _ h => blackRecPool_not_watched h,
   fun _ h => black3UserRecs_not_watched h⟩

/-- A concrete catalog of 100 identically named Drama movies. -/
def catW : List Movie := (List.range 100).map (fun i => ⟨i, "M", "Drama", 30⟩)

theorem c2_witness :
    "M" ∈ (blackUserPool (blackInteractions 10 catW 100) "U01").map
      Interaction.movieName :=
  (c2_amended_exclusion 10 100 catW "U01").1 "M" (by decide)

/-- A concrete catalog whose genre strings are all multi-genre. -/
def catC4 : List Movie := (List.range 100).map (fun i => ⟨i, "M", "Action, Drama", 30⟩)

/-- C4 counterexample: `black.py`'s genre aggregation (line 101,
`df["Genre"].value_counts()`) counts whole genre strings without splitting,
so on a catalog whose genre strings are all "Action, Drama" the count it
reports for the genre "Action" is 0 while the number of
(interaction record, genre) pairs with genre "Action" after splitting is
the number of records (300); the claim fails for `black.py`. -/
theorem c4_counterexample :
    genreCountBlack (blackInteractions 10 catC4 100) "Action" ≠
      genrePairsSplit (blackInteractions 10 catC4 100) "Action" := by
  decide

/-- C4 (amended): in `black3.py` and `black4.py` the count reported for each
genre by the genre-popularity aggregation equals the number of
(interaction record, genre) pairs after splitting each record's multi-genre
string (on `", "`, resp. on `","` followed by strip/title normalization);
`black.py`'s aggregation instead counts records by their whole unsplit genre
string, which agrees with the split-pair count only when no multi-genre
strings occur. -/
theorem c4_amended_counts (df : List Interaction) (g : String) :
    genreCounts3 df g = genrePairsSplit df g ∧
    genrePopularity4 df g = genrePairs4 df g ∧
    genreCountBlack df g = (df.filter (fun r => r.genre == g)).length := by
  refine ⟨count_explodeL _ g df, count_explodeL _ g df, ?_⟩
  simp only [genreCountBlack, List.count_eq_countP, List.countP_eq_length_filter]
  rw [List.filter_map, List.length_map]
  rfl
